import Mathlib

/-
Verification of the push-notification dispatch engine (APNs adapter and
Feishu webhook adapter) of the chat server.

Shallow embedding conventions:
  * Go `map[string]string` is embedded as an association list with
    prepend-on-write; lookups take the most recent binding, which matches
    overwrite semantics.
  * Machine integers never overflow in the modelled code paths, so they are
    embedded as `Nat`/`Int`.
  * External collaborators (storage queries, the drafty text renderer, the
    display-name resolvers, HTTP responses) are passed in as explicit
    parameters, so every function stays pure and executable.
  * Topic identifiers are strings in the source, with their structure encoded
    by prefix (`usr…`, `p2p…`, `grp…`, …).  The embedding keeps the structured
    form (`TopicId`) together with its rendered string (`TopicId.name`).
-/

namespace ChatPush

/-- Go `map[string]string`: an association list where writing prepends and
reading takes the first binding of a key. -/
abbrev StrMap := List (String × String)

/-- Write a key (overwrite semantics via prepend + first-match read). -/
def StrMap.set (m : StrMap) (k v : String) : StrMap := (k, v) :: m

/-- Read a key, `none` when absent. -/
def StrMap.get? (m : StrMap) (k : String) : Option String :=
  (m.find? (fun p => p.1 = k)).map (fun p => p.2)

/-- Read a key with Go's zero-value default for missing keys. -/
def StrMap.get (m : StrMap) (k : String) : String := (m.get? k).getD ""

/-- Modelled from the spec: the action kinds carried by a Payload
(new-message, subscription-change, read-receipt); the `push` package that
declares these string constants is not under src/. -/
def actMsg : String := "msg"

/-- Modelled from the spec: subscription-change action kind. -/
def actSub : String := "sub"

/-- Modelled from the spec: read-receipt action kind. -/
def actRead : String := "read"

/-- Modelled from the spec: the fixed maximum rune count for pushed content
(`push.MaxPayloadLength`, not under src/; the spec fixes it at 128). -/
def maxPayloadLength : Nat := 128

/-- TTL of a VOIP push notification in seconds (source constant). -/
def voipTimeToLive : Nat := 10

/-- TTL of a regular push notification in seconds (source constant). -/
def defaultTimeToLive : Nat := 3600

/-- Source constant ACT_AUIDO. -/
def ACT_AUIDO : Nat := 1

/-- Source constant ACT_VIDEO. -/
def ACT_VIDEO : Nat := 2

/-- Source constant ACT_MISSED. -/
def ACT_MISSED : Nat := 3

/-- Topic identifiers.  In the source these are strings whose first three
characters encode the topic class; the embedding keeps the decoded form, and
`TopicId.name` renders the string the source manipulates.  User identities
(`t.Uid`) are embedded as `Nat`, `0` standing for `t.ZeroUid`. -/
inductive TopicId where
  | usr (u : Nat)
  | p2p (a b : Nat)
  | grp (s : String)
  | fnd (s : String)
  | sys
  | unknown (s : String)
deriving DecidableEq, Repr

/-- The string form of a topic identifier (what `pl.Topic` holds in Go). -/
def TopicId.name : TopicId → String
  | .usr u => "usr" ++ toString u
  | .p2p a b => "p2p" ++ toString a ++ ":" ++ toString b
  | .grp s => "grp" ++ s
  | .fnd s => "fnd" ++ s
  | .sys => "sys"
  | .unknown s => s

/-- Topic categories as classified by `t.GetTopicCat`. -/
inductive TopicCat where
  | me | p2p | grp | fnd | sys | unknown
deriving DecidableEq, Repr

/-- Modelled from the spec: `t.GetTopicCat` (store/types, not under src/)
classifies a topic identifier by its class prefix. -/
def getTopicCat : TopicId → TopicCat
  | .usr _ => .me
  | .p2p _ _ => .p2p
  | .grp _ => .grp
  | .fnd _ => .fnd
  | .sys => .sys
  | .unknown _ => .unknown

/-- Modelled from the spec: `t.P2PNameForUser` (store/types, not under src/)
renders a direct (1:1) topic as seen by one participant: the counterpart's
user identifier; it fails for a non-participant.  The caller in src/ ignores
the error and then uses the zero-value empty string. -/
def p2pNameForUser (uid : Nat) : TopicId → Option String
  | .p2p a b =>
      if uid = a then some (TopicId.name (.usr b))
      else if uid = b then some (TopicId.name (.usr a))
      else none
  | _ => none

/-- Modelled from the spec: `t.ParseUserId` (store/types, not under src/)
parses a `usr…` identifier, returning the zero uid on failure.  The numeric
tail mirrors the `Nat` embedding of uids. -/
def parseUserId (s : String) : Nat :=
  match s.data with
  | 'u' :: 's' :: 'r' :: rest =>
      if rest ≠ [] ∧ rest.all Char.isDigit then
        rest.foldl (fun n c => n * 10 + (c.toNat - 48)) 0
      else 0
  | _ => 0

/-- `push.Payload`: the generic message event (fields used by the adapters). -/
structure Payload where
  what : String
  silent : Bool
  topic : TopicId
  fromUser : String
  ts : String
  seqId : Nat
  contentType : String
  /-- The rich-text (drafty) document, kept abstract as its serialized form. -/
  content : String
  webrtc : String
  audioOnly : Bool
  replace : String
  modeWant : String
  modeGiven : String
deriving Repr

/-- Per-recipient delivery state (`push.Recipient`). -/
structure Recipient where
  delivered : Nat
  unread : Nat
  devices : List String
deriving DecidableEq, Repr

/-- `push.Receipt`: one messaging event plus per-recipient delivery state.
The Go `To` map is embedded as an association list keyed by uid. -/
structure Receipt where
  payload : Payload
  To : List (Nat × Recipient)
  channel : String
deriving Repr

/-- Lookup in the receipt's `To` map with the Go zero value for a missing
recipient. -/
def Receipt.toFor (rcpt : Receipt) (uid : Nat) : Recipient :=
  ((rcpt.To.find? (fun p => p.1 = uid)).map (fun p => p.2)).getD ⟨0, 0, []⟩

/-- The collaborator environment of the payload transformer: the drafty
renderers (black-box text transforms) and the display-name resolvers
(`getUserName` / `getTopicName`, which consult storage). -/
structure Env where
  plainText : String → Except String String
  preview : String → Nat → Except String String
  userName : Payload → String
  topicName : Payload → String

/-- The plain-text rendering of a new-message payload before any adjustment
(Go: `data["content"], err = drafty.PlainText(pl.Content)`; the Go zero value
for the string on a render error is the empty string). -/
def msgRawContent (env : Env) (pl : Payload) : String :=
  match env.plainText pl.content with
  | .ok s => s
  | .error _ => ""

/-- The content after the topic-category adjustment (group-like topics prefix
the sender's display name). -/
def msgAdjustedContent (env : Env) (pl : Payload) : String :=
  match getTopicCat pl.topic with
  | .grp | .fnd | .sys => env.userName pl ++ ": " ++ msgRawContent env pl
  | _ => msgRawContent env pl

/-- Go `len(string)`: the UTF-8 byte length. -/
def utf8Len (s : String) : Nat :=
  s.data.foldl (fun n c => n + c.utf8Size) 0

/-- The source's trim step: check byte length first, then rune length, and
truncate to `maxPayloadLength` runes plus an ellipsis when too long. -/
def trimContent (s : String) : String :=
  if maxPayloadLength < utf8Len s then
    if maxPayloadLength < s.data.length then
      String.mk (s.data.take maxPayloadLength) ++ "…"
    else s
  else s

/-- `payloadToData`: event → generic notification dataset, or an error for a
drafty render failure / unknown action kind. -/
def payloadToData (env : Env) (pl : Payload) : Except String StrMap :=
  let data : StrMap := []
  let data := data.set "what" pl.what
  let data := if pl.silent then data.set "silent" "true" else data
  let data := data.set "topic" pl.topic.name
  let data := data.set "ts" pl.ts
  let data := data.set "xfrom" pl.fromUser
  if pl.what = actMsg then
    let data := data.set "seq" (toString pl.seqId)
    let data := if pl.contentType ≠ "" then data.set "mime" pl.contentType else data
    let err1 : Option String :=
      match env.plainText pl.content with
      | .ok _ => none
      | .error e => some e
    let data := data.set "content" (msgRawContent env pl)
    let data :=
      match getTopicCat pl.topic with
      | .p2p => data.set "title" (env.userName pl)
      | .grp | .fnd | .sys =>
          let d := data.set "title" (env.topicName pl)
          d.set "content" (env.userName pl ++ ": " ++ d.get "content")
      | _ => data
    match err1 with
    | some e => .error e
    | none =>
      let data := data.set "content" (trimContent (data.get "content"))
      let err2 : Option String :=
        match env.preview pl.content maxPayloadLength with
        | .ok _ => none
        | .error e => some e
      let data := data.set "rc"
        (match env.preview pl.content maxPayloadLength with
         | .ok s => s
         | .error _ => "")
      let data :=
        if pl.webrtc ≠ "" then
          let data := data.set "webrtc" pl.webrtc
          let data :=
            if pl.audioOnly then
              ((data.set "aonly" "true").set "content" "[AUDIO CALL]").set "act" (toString ACT_AUIDO)
            else
              (data.set "content" "[VIDEO CALL]").set "act" (toString ACT_VIDEO)
          let data :=
            if pl.webrtc = "missed" then
              (data.set "content" "[MISSED CALL]").set "act" (toString ACT_MISSED)
            else data
          data.set "silent" "true"
        else data
      let data :=
        if pl.replace ≠ "" then
          (data.set "silent" "true").set "replace" pl.replace
        else data
      match err2 with
      | some e => .error e
      | none => .ok data
  else if pl.what = actSub then
    .ok ((data.set "modeWant" pl.modeWant).set "modeGiven" pl.modeGiven)
  else if pl.what = actRead then
    .ok ((data.set "seq" (toString pl.seqId)).set "silent" "true")
  else
    .error "unknown push type"

/-- The per-action alert template table (`common.Config`): the source only
reads it through `GetStringField` / `GetIntField`, so it is embedded as those
two lookups. -/
structure CommonConfig where
  getStringField : String → String → String
  getIntField : String → String → Int

/-- `configType` of the APNs adapter (fields used by the builder/resolver). -/
structure ConfigType where
  enabled : Bool
  appTopic : String
  timeToLive : Nat
  commonConfig : CommonConfig

/-- The blank config the resolver substitutes for a nil pointer
(`config = &configType{}`). -/
def blankConfig : ConfigType :=
  ⟨false, "", 0, ⟨fun _ _ => "", fun _ _ => 0⟩⟩

/-- `t.DeviceDef` (fields used by the resolver). -/
structure DeviceDef where
  deviceId : String
  platform : String
deriving DecidableEq, Repr

/-- `common.ApsAlert`. -/
structure ApsAlert where
  action : String
  actionLocKey : String
  body : String
  launchImage : String
  locKey : String
  title : String
  subtitle : String
  titleLocKey : String
  summaryArg : String
  summaryArgCount : Int
deriving DecidableEq, Repr

/-- `common.Aps`. -/
structure Aps where
  badge : Nat
  contentAvailable : Nat
  mutableContent : Nat
  interruptionLevel : String
  sound : String
  threadID : String
  alert : Option ApsAlert
deriving DecidableEq, Repr

/-- The serialized notification body `{"aps": ..., "act"?: ...}` kept in
structured form (JSON marshalling of these plain records cannot fail, so the
serialization error path collapses away). -/
structure ApnsBody where
  aps : Aps
  act : Option String
deriving DecidableEq, Repr

/-- `apns2.Notification` (fields used by the adapter).  Expiration is an
absolute time in seconds. -/
structure ApnsNotification where
  deviceToken : String
  topic : String
  collapseID : String
  expiration : Nat
  pushType : String
  priority : Nat
  payload : Option ApnsBody
deriving DecidableEq, Repr

/-- Interruption levels (`common.InterruptionLevel…` string constants). -/
def interruptionLevelPassive : String := "passive"

/-- Time-sensitive interruption level. -/
def interruptionLevelTimeSensitive : String := "time-sensitive"

/-- Critical interruption level. -/
def interruptionLevelCritical : String := "critical"

/-- `apnsShouldPresentAlert`: the alert-block inclusion rule. -/
def apnsShouldPresentAlert (what callStatus isSilent : String)
    (config : ConfigType) : Bool :=
  config.enabled && !(what == actRead) &&
    ((callStatus == "" && isSilent == "") ||
      (callStatus == "started" || callStatus == "missed"))

/-- `apnsNotificationConfig`: fill in the outbound envelope from the dataset,
the unread count and the template table.  `now` stands for `time.Now()` in
seconds. -/
def apnsNotificationConfig (what topic : String) (data : StrMap) (unread : Nat)
    (config : ConfigType) (msg : ApnsNotification) (now : Nat) :
    ApnsNotification :=
  let callStatus := data.get "webrtc"
  let expires :=
    if 0 < config.timeToLive then now + config.timeToLive
    else now + defaultTimeToLive
  let pushType := "alert"
  let priority := 10
  let interruptionLevel := interruptionLevelTimeSensitive
  let (pushType, priority, interruptionLevel, expires) :=
    if callStatus = "started" ∨ callStatus = "missed" then
      (pushType, priority, interruptionLevelCritical, now + voipTimeToLive)
    else if what = actRead then
      ("background", 5, interruptionLevelPassive, expires)
    else (pushType, priority, interruptionLevel, expires)
  let sound := "default"
  let apsPayload : Aps :=
    { badge := unread
      contentAvailable := 1
      mutableContent := 1
      interruptionLevel := interruptionLevel
      sound := sound
      threadID := topic
      alert :=
        if apnsShouldPresentAlert what callStatus (data.get "silent") config then
          let body0 := config.commonConfig.getStringField what "Body"
          let body := if body0 = "$content" then data.get "content" else body0
          let title0 := config.commonConfig.getStringField what "Title"
          let title := if title0 = "$title" then data.get "title" else title0
          some
            { action := config.commonConfig.getStringField what "Action"
              actionLocKey := config.commonConfig.getStringField what "ActionLocKey"
              body := body
              launchImage := config.commonConfig.getStringField what "LaunchImage"
              locKey := config.commonConfig.getStringField what "LocKey"
              title := title
              subtitle := config.commonConfig.getStringField what "Subtitle"
              titleLocKey := config.commonConfig.getStringField what "TitleLocKey"
              summaryArg := config.commonConfig.getStringField what "SummaryArg"
              summaryArgCount := config.commonConfig.getIntField what "SummaryArgCount" }
        else none }
  let tmpPayload : ApnsBody :=
    if callStatus = "started" ∨ callStatus = "missed" then
      ⟨apsPayload, some (data.get "act")⟩
    else ⟨apsPayload, none⟩
  { msg with
    collapseID := topic
    expiration := expires
    pushType := pushType
    priority := priority
    payload := some tmpPayload }

/-- Whether a built envelope carries a human-visible alert block. -/
def ApnsNotification.hasAlert (n : ApnsNotification) : Bool :=
  match n.payload with
  | some b => b.aps.alert.isSome
  | none => false

/-- `clonePayload`: a fresh map holding the same entries (a value copy). -/
def clonePayload (src : StrMap) : StrMap := src

/-- The `userData` variable of the resolver loop: either still an alias of the
shared base dataset or a separate (cloned) map.  Making the aliasing explicit
lets the embedding express in-place mutation: a write through the alias hits
the shared base. -/
inductive MapRef where
  | base
  | copy (m : StrMap)
deriving DecidableEq, Repr

/-- Dereference: the map a `MapRef` denotes given the current base. -/
def MapRef.read (base : StrMap) : MapRef → StrMap
  | .base => base
  | .copy m => m

/-- A write through a `MapRef`: writing through the alias mutates the shared
base; writing to a copy leaves the base untouched. -/
def writeRef (base : StrMap) (r : MapRef) (k v : String) : StrMap × MapRef :=
  match r with
  | .base => (base.set k v, .base)
  | .copy m => (base, .copy (m.set k v))

/-- Result of the per-recipient dataset step: the (possibly mutated) shared
base, the recipient's `userData` reference and the (possibly rewritten) topic
string. -/
structure StepResult where
  base : StrMap
  userData : MapRef
  topic : String
deriving Repr

/-- The per-recipient head of the resolver loop: start with `userData`
aliasing the shared base; clone when the recipient needs divergent values
(already delivered interactively, or a direct topic whose name must be
rewritten per user), then apply the divergent writes. -/
def userDataStep (base : StrMap) (delivered : Nat) (uid : Nat)
    (plTopic : TopicId) : StepResult :=
  let topic := plTopic.name
  let userData : MapRef := .base
  let tcat := getTopicCat plTopic
  if 0 < delivered ∨ tcat = .p2p then
    let userData : MapRef := .copy (clonePayload base)
    let (base, userData, topic) :=
      if tcat = .p2p then
        let topic := (p2pNameForUser uid plTopic).getD ""
        let (base, userData) := writeRef base userData "topic" topic
        (base, userData, topic)
      else (base, userData, topic)
    let (base, userData) :=
      if 0 < delivered then writeRef base userData "silent" "true"
      else (base, userData)
    ⟨base, userData, topic⟩
  else ⟨base, userData, topic⟩

/-- The per-device inner loop: skip devices whose id is empty or in the
skip-set; build the envelope (the platform switch configures it only for
`ios`; the append happens for every non-skipped device). -/
def deviceMessages (skip : List String) (config : ConfigType)
    (what topic : String) (userData : StrMap) (unread : Nat) (uid : Nat)
    (now : Nat) (devList : List DeviceDef) : List (ApnsNotification × Nat) :=
  devList.filterMap (fun d =>
    if d.deviceId ∉ skip ∧ d.deviceId ≠ "" then
      let msg : ApnsNotification :=
        { deviceToken := d.deviceId
          topic := config.appTopic
          collapseID := topic
          expiration := 0
          pushType := ""
          priority := 0
          payload := none }
      let msg :=
        if d.platform = "ios" then
          apnsNotificationConfig what topic userData unread config msg now
        else msg
      some (msg, uid)
    else none)

/-- The recipient fold of `PrepareApnsNotifications`, threading the shared
base dataset through every recipient step. -/
def prepareLoop (rcpt : Receipt) (skip : List String) (config : ConfigType)
    (now : Nat) (devices : List (Nat × List DeviceDef)) (base : StrMap) :
    StrMap × List (ApnsNotification × Nat) :=
  match devices with
  | [] => (base, [])
  | (uid, devList) :: rest =>
      let step := userDataStep base (rcpt.toFor uid).delivered uid
        rcpt.payload.topic
      let msgs := deviceMessages skip config rcpt.payload.what step.topic
        (step.userData.read step.base) (rcpt.toFor uid).unread uid now devList
      let (base', more) := prepareLoop rcpt skip config now rest step.base
      (base', msgs ++ more)

/-- The skip-set: device ids already delivered interactively, aggregated
across all recipients of the Receipt. -/
def receiptSkipDevices (rcpt : Receipt) : List String :=
  (rcpt.To.map (fun p => p.2.devices)).flatten

/-- Result of `PrepareApnsNotifications`.  `base` is the shared base dataset
after the whole loop (exposed to state the no-mutation property); the empty
map stands in for it on the error paths, where no dataset was built. -/
structure PrepareResult where
  messages : List ApnsNotification
  uids : List Nat
  base : StrMap
deriving Repr

/-- `PrepareApnsNotifications`: resolve a Receipt into outbound envelopes.
`devs` is the storage collaborator's answer to the batch device lookup for
the Receipt's recipients (`store.Devices.GetAll`), with its count equal to
the total number of returned device records. -/
def prepareApnsNotifications (env : Env) (rcpt : Receipt)
    (config : Option ConfigType) (devs : List (Nat × List DeviceDef))
    (now : Nat) : PrepareResult :=
  match payloadToData env rcpt.payload with
  | .error _ => ⟨[], [], []⟩
  | .ok data =>
    let devices := if 0 < rcpt.To.length then devs else []
    let count := (devices.map (fun p => p.2.length)).sum
    if count = 0 ∧ rcpt.channel = "" then ⟨[], [], data⟩
    else
      let config := config.getD blankConfig
      let (base, pairs) :=
        prepareLoop rcpt (receiptSkipDevices rcpt) config now devices data
      ⟨pairs.map (fun p => p.1), pairs.map (fun p => p.2), base⟩

/-- The envelope count the (amended) spec predicts: all registered devices of
the Receipt's recipients, minus those in the skip-set and those with an empty
device id (the platform tag does not affect the count). -/
def apnsTargetCount (rcpt : Receipt) (devs : List (Nat × List DeviceDef)) :
    Nat :=
  if 0 < rcpt.To.length then
    ((devs.map (fun p =>
      (p.2.filter (fun d =>
        d.deviceId ∉ receiptSkipDevices rcpt ∧ d.deviceId ≠ "")).length)).sum)
  else 0

/-- Provider reason-string constants (`apns2.Reason…`, vendor library). -/
def reasonInternalServerError : String := "InternalServerError"

/-- Service-unavailable reason. -/
def reasonServiceUnavailable : String := "ServiceUnavailable"

/-- Bad collapse id reason. -/
def reasonBadCollapseID : String := "BadCollapseId"

/-- Bad device token reason. -/
def reasonBadDeviceToken : String := "BadDeviceToken"

/-- Bad expiration date reason. -/
def reasonBadExpirationDate : String := "BadExpirationDate"

/-- Bad message id reason. -/
def reasonBadMessageID : String := "BadMessageId"

/-- Bad priority reason. -/
def reasonBadPriority : String := "BadPriority"

/-- Bad topic reason. -/
def reasonBadTopic : String := "BadTopic"

/-- Device token not for topic reason. -/
def reasonDeviceTokenNotForTopic : String := "DeviceTokenNotForTopic"

/-- Duplicate headers reason. -/
def reasonDuplicateHeaders : String := "DuplicateHeaders"

/-- Idle timeout reason. -/
def reasonIdleTimeout : String := "IdleTimeout"

/-- Invalid push type reason. -/
def reasonInvalidPushType : String := "InvalidPushType"

/-- Missing device token reason. -/
def reasonMissingDeviceToken : String := "MissingDeviceToken"

/-- Missing topic reason. -/
def reasonMissingTopic : String := "MissingTopic"

/-- Payload empty reason. -/
def reasonPayloadEmpty : String := "PayloadEmpty"

/-- Topic disallowed reason. -/
def reasonTopicDisallowed : String := "TopicDisallowed"

/-- Bad certificate reason. -/
def reasonBadCertificate : String := "BadCertificate"

/-- Unregistered reason. -/
def reasonUnregistered : String := "Unregistered"

/-- What one provider response makes the batch loop do next. -/
inductive BatchOutcome where
  /-- Fall out of the switch and continue with the next message. -/
  | proceed
  /-- Return from `sendApns`: the remaining batch is dropped. -/
  | abort
  /-- Delete this device's registration, then continue. -/
  | deleteAndProceed
deriving DecidableEq, Repr

/-- The response classification of `sendApns`: the `if` on the status code
and the `switch` on the reason, translated clause by clause.  The second and
third Go `case` clauses have empty bodies (Go `switch` does not fall
through), so the reasons they list fall out of the switch and the loop
continues. -/
def classifyApnsResponse (statusCode : Nat) (reason : String) : BatchOutcome :=
  if statusCode = 200 then .proceed
  else if reason = reasonInternalServerError ∨ reason = reasonServiceUnavailable then
    .abort
  else if reason = reasonBadCollapseID ∨ reason = reasonBadDeviceToken ∨
      reason = reasonBadExpirationDate ∨ reason = reasonBadMessageID ∨
      reason = reasonBadPriority then
    .proceed
  else if reason = reasonBadTopic ∨ reason = reasonDeviceTokenNotForTopic ∨
      reason = reasonDuplicateHeaders ∨ reason = reasonIdleTimeout ∨
      reason = reasonInvalidPushType then
    .proceed
  else if reason = reasonMissingDeviceToken ∨ reason = reasonMissingTopic ∨
      reason = reasonPayloadEmpty ∨ reason = reasonTopicDisallowed ∨
      reason = reasonBadCertificate then
    .abort
  else if reason = reasonUnregistered then .deleteAndProceed
  else .abort

/-- The body of the `sendApns` batch loop over prepared messages, each paired
with its uid and the provider's response (status, reason).  Returns the
device tokens actually pushed and the (uid, token) registrations deleted. -/
def sendApnsLoop :
    List (ApnsNotification × Nat × Nat × String) →
      List String × List (Nat × String)
  | [] => ([], [])
  | (msg, uid, statusCode, reason) :: rest =>
      match classifyApnsResponse statusCode reason with
      | .proceed =>
          let (sent, deleted) := sendApnsLoop rest
          (msg.deviceToken :: sent, deleted)
      | .abort => ([msg.deviceToken], [])
      | .deleteAndProceed =>
          let (sent, deleted) := sendApnsLoop rest
          (msg.deviceToken :: sent, (uid, msg.deviceToken) :: deleted)

/-- `tenantAccessTokenInfo`: one cached provider credential. -/
structure TenantAccessTokenInfo where
  tenantAccessToken : String
  expire : Int
  timestamp : Int
deriving DecidableEq, Repr

/-- The Go zero value of a missing cache entry. -/
def zeroTokenInfo : TenantAccessTokenInfo := ⟨"", 0, 0⟩

/-- The token cache (`handler.tokenInfo`), keyed by app id. -/
abbrev TokenMap := List (String × TenantAccessTokenInfo)

/-- Write an entry (overwrite semantics via prepend + first-match read). -/
def TokenMap.setTok (m : TokenMap) (appId : String)
    (info : TenantAccessTokenInfo) : TokenMap := (appId, info) :: m

/-- Read an entry with the Go zero value for a missing app id. -/
def TokenMap.getTok (m : TokenMap) (appId : String) : TenantAccessTokenInfo :=
  ((m.find? (fun p => p.1 = appId)).map (fun p => p.2)).getD zeroTokenInfo

/-- The decoded body of the token-issuance response. -/
structure FeishuAuthResponse where
  code : Int
  msg : String
  tenantAccessToken : String
  expire : Int
deriving DecidableEq, Repr

/-- The outcome of the authentication HTTP exchange as seen by the refresh
code: either some transport/decode error, or a decoded body (whose `code`
field the refresh still has to check). -/
inductive FeishuAuthReply where
  | failure (e : String)
  | response (r : FeishuAuthResponse)
deriving DecidableEq, Repr

/-- `refreshTenantAccessToken`: on any transport/decode failure or a non-zero
provider code, return the error without touching the cache; on success,
overwrite the entry with the fresh token, expiry and acquisition timestamp
(`now` stands for `time.Now().Unix()`). -/
def refreshTenantAccessToken (reply : FeishuAuthReply) (now : Int)
    (appId : String) (st : TokenMap) : Except String TokenMap :=
  match reply with
  | .failure e => .error e
  | .response r =>
      if r.code ≠ 0 then
        .error ("failed to get tenant_access_token: code=" ++ toString r.code
          ++ ", msg=" ++ r.msg)
      else
        .ok (st.setTok appId ⟨r.tenantAccessToken, r.expire, now⟩)

/-- Result of `getTenantAccessToken`: the returned token or error, the cache
afterwards, and whether a refresh was triggered. -/
structure GetTokenResult where
  result : Except String String
  state : TokenMap
  refreshed : Bool
deriving Repr

/-- `getTenantAccessToken`: read the cached entry, refresh when
`now >= timestamp + expire - 300`, and propagate a refresh failure to the
caller; after a successful refresh the newly cached token is re-read and
returned. -/
def getTenantAccessToken (reply : FeishuAuthReply) (now : Int)
    (appId : String) (st : TokenMap) : GetTokenResult :=
  let info := st.getTok appId
  let expireTime := info.timestamp + info.expire - 300
  if expireTime ≤ now then
    match refreshTenantAccessToken reply now appId st with
    | .error e => ⟨.error e, st, true⟩
    | .ok st' => ⟨.ok ((st'.getTok appId).tenantAccessToken), st', true⟩
  else ⟨.ok info.tenantAccessToken, st, false⟩

/-- A user record as returned by `store.Users.GetAll` (the fields the Feishu
adapter reads, plus the identity the record is keyed by). -/
structure FeishuUserRec where
  uid : Nat
  unionId : String
  feishuAppId : String
deriving DecidableEq, Repr

/-- One webhook send the Feishu adapter performs (the `sendMessage` call for
one fetched user). -/
structure FeishuSend where
  user : FeishuUserRec
  text : String
  urgent : Bool
deriving DecidableEq, Repr

/-- `sendFeishuMessage`: resolve a Receipt into the list of webhook sends.
`db` is the storage collaborator behind `store.Users.GetAll`, which returns
the stored records whose uid is in the queried list.  The queried list is
built exactly as the source builds it: the `uids` slice is allocated at the
full recipient count and the skipped sender leaves zero-uid slots behind. -/
def sendFeishuMessage (rcpt : Receipt) (db : List FeishuUserRec) :
    List FeishuSend :=
  if rcpt.payload.what ≠ actMsg then []
  else if rcpt.payload.webrtc ≠ "" ∧ rcpt.payload.webrtc ≠ "started" then []
  else
    let fromUid := parseUserId rcpt.payload.fromUser
    let users :=
      if 0 < rcpt.To.length then
        let uids :=
          (rcpt.To.map (fun p => p.1)).filter (fun u => u ≠ fromUid) ++
            List.replicate
              ((rcpt.To.filter (fun p => p.1 = fromUid)).length) 0
        db.filter (fun u => u.uid ∈ uids)
      else []
    if users.length = 0 then []
    else
      let (messageText, isUrgent) :=
        if rcpt.payload.webrtc ≠ "" then
          (if rcpt.payload.audioOnly then "有人给你打音频通话，快打开软件看看吧"
           else "有人给你打视频通话，快打开软件看看吧", true)
        else ("收到一条新消息，快打开软件看看吧", false)
      users.map (fun u => ⟨u, messageText, isUrgent⟩)

/-
Concrete instances used to evaluate the development on explicit inputs.
-/

/-- A collaborator environment whose renderers are the identity and whose
display-name resolvers return the empty string. -/
def envId : Env :=
  ⟨fun s => .ok s, fun s _ => .ok s, fun _ => "", fun _ => ""⟩

/-- A baseline new-message payload. -/
def basePayload : Payload :=
  { what := actMsg, silent := false, topic := .grp "g", fromUser := "usr7",
    ts := "2024-01-01T00:00:00Z", seqId := 5, contentType := "",
    content := "hi", webrtc := "", audioOnly := false, replace := "",
    modeWant := "JRWPS", modeGiven := "JRWPS" }

/-- A subscription-change payload carrying a call-signaling state. -/
def plSubCall : Payload :=
  { basePayload with
    what := actSub, webrtc := "started" }

/-- A new-message payload on a direct topic whose rendered content is 130
runes long and which carries an audio call-signaling state. -/
def plLongCall : Payload :=
  { basePayload with
    topic := .p2p 3 4, content := String.mk (List.replicate 130 'a'),
    webrtc := "started", audioOnly := true }

/-- The same long new-message payload without a call-signaling state. -/
def plLongNoCall : Payload :=
  { plLongCall with webrtc := "" }

/-- A bare half-built envelope for device token dA. -/
def apnsMsgA : ApnsNotification := ⟨"dA", "", "topic", 0, "", 0, none⟩

/-- A bare half-built envelope for device token dB. -/
def apnsMsgB : ApnsNotification := ⟨"dB", "", "topic", 0, "", 0, none⟩

/-- A receipt whose single recipient already received the event on device dA. -/
def rcptC2 : Receipt :=
  { payload := basePayload, To := [(1, ⟨1, 2, ["dA"]⟩)], channel := "" }

/-- The stored devices of that recipient: the delivered dA and a second dB. -/
def devsC2 : List (Nat × List DeviceDef) :=
  [(1, [⟨"dA", "web"⟩, ⟨"dB", "web"⟩])]

/-- A receipt with one recipient and nothing delivered interactively. -/
def rcptC3 : Receipt :=
  { payload := basePayload, To := [(1, ⟨0, 2, []⟩)], channel := "" }

/-- A single registered device whose platform tag is `web`. -/
def devsC3 : List (Nat × List DeviceDef) := [(1, [⟨"d1", "web"⟩])]

/-- A two-recipient receipt on a direct topic; recipient 3 already received
the event on device dA. -/
def rcptC9 : Receipt :=
  { payload := { basePayload with topic := .p2p 3 4 },
    To := [(3, ⟨1, 2, ["dA"]⟩), (4, ⟨0, 1, []⟩)], channel := "" }

/-- The stored devices of the two recipients of `rcptC9`. -/
def devsC9 : List (Nat × List DeviceDef) :=
  [(3, [⟨"dA", "ios"⟩, ⟨"dB", "ios"⟩]), (4, [⟨"dC", "ios"⟩])]

/-- A token cache holding one entry acquired at time 1000 with expiry 400. -/
def stC4 : TokenMap := [("app", ⟨"t1", 400, 1000⟩)]

/-- A successful token-issuance response whose expiry is only 100 seconds. -/
def replyShort : FeishuAuthReply := .response ⟨0, "", "t2", 100⟩

/-- A successful token-issuance response with a realistic 7200-second expiry. -/
def replyLong : FeishuAuthReply := .response ⟨0, "", "t3", 7200⟩

/-- A provider-reported error response (non-zero code). -/
def replyBad : FeishuAuthReply := .response ⟨99991663, "app not found", "", 0⟩

/-- The cache after a successful refresh of `stC4` with `replyLong` at time
1200. -/
def stC4AfterRefresh : TokenMap :=
  TokenMap.setTok stC4 "app" ⟨"t3", 7200, 1200⟩

/-- A new-message receipt to recipients 5 and 7 sent by user 5. -/
def rcptC10 : Receipt :=
  { payload := { basePayload with fromUser := "usr5" },
    To := [(5, ⟨0, 1, []⟩), (7, ⟨0, 1, []⟩)], channel := "" }

/-- The stored user records for recipients 5 and 7. -/
def dbC10 : List FeishuUserRec := [⟨5, "u5", "appA"⟩, ⟨7, "u7", "appA"⟩]

/-- The same receipt with a read-receipt action kind. -/
def rcptC10Read : Receipt :=
  { rcptC10 with
    payload := { rcptC10.payload with what := actRead } }

/-
Helper lemmas.
-/

/-- Reading the key just written returns the written value. -/
theorem StrMap.get_set_self (m : StrMap) (k v : String) :
    (m.set k v).get k = v := by
  simp [StrMap.set, StrMap.get, StrMap.get?, List.find?]

/-- Writes to other keys are invisible. -/
theorem StrMap.get_set_ne (m : StrMap) (k v k' : String) (h : ¬ k = k') :
    (m.set k v).get k' = m.get k' := by
  simp [StrMap.set, StrMap.get, StrMap.get?, List.find?, h]

/-- Folding UTF-8 sizes dominates the character count. -/
theorem utf8Size_foldl_ge (l : List Char) (n : Nat) :
    n + l.length ≤ l.foldl (fun a c => a + c.utf8Size) n := by
  induction l generalizing n with
  | nil => simp
  | cons c t ih =>
      have h1 : 0 < c.utf8Size := Char.utf8Size_pos c
      have := ih (n + c.utf8Size)
      simp only [List.foldl_cons, List.length_cons]
      omega

/-- The rune count of a string never exceeds its byte length, which is why
the source's byte-length fast path never skips a needed truncation. -/
theorem length_le_utf8Len (s : String) : s.length ≤ utf8Len s := by
  have h2 : s.data.length ≤ List.foldl (fun a c => a + c.utf8Size) 0 s.data := by
    have := utf8Size_foldl_ge s.data 0
    omega
  exact h2

/-- Strings longer than the budget are truncated to 128 runes plus an
ellipsis. -/
theorem trimContent_of_gt (s : String) (hgt : maxPayloadLength < s.length) :
    trimContent s = String.mk (s.data.take maxPayloadLength) ++ "…" := by
  have hb : maxPayloadLength < utf8Len s :=
    lt_of_lt_of_le hgt (length_le_utf8Len s)
  have hd : maxPayloadLength < s.data.length := hgt
  rw [trimContent, if_pos hb, if_pos hd]

/-- Strings within the budget are left unchanged. -/
theorem trimContent_of_le (s : String) (hle : s.length ≤ maxPayloadLength) :
    trimContent s = s := by
  have hd : ¬ maxPayloadLength < s.data.length := by
    have : s.length = s.data.length := rfl
    omega
  simp only [trimContent, if_neg hd]
  split <;> rfl

/-- A truncated string has exactly 129 runes. -/
theorem length_trimContent_of_gt (s : String)
    (hgt : maxPayloadLength < s.length) :
    (trimContent s).length = maxPayloadLength + 1 := by
  rw [trimContent_of_gt s hgt]
  have h1 : (String.mk (s.data.take maxPayloadLength)).length
      = maxPayloadLength := by
    rw [show (String.mk (s.data.take maxPayloadLength)).length
        = (s.data.take maxPayloadLength).length from rfl, List.length_take]
    have : s.length = s.data.length := rfl
    omega
  rw [String.length_append, h1]
  rfl

/-- For a new-message payload without a call-signaling state, the dataset's
content entry is exactly the trimmed adjusted content. -/
theorem payloadToData_content_trim (env : Env) (pl : Payload) (m : StrMap)
    (h : pl.what = actMsg) (hw : pl.webrtc = "")
    (hm : payloadToData env pl = .ok m) :
    m.get "content" = trimContent (msgAdjustedContent env pl) := by
  rw [payloadToData.eq_def] at hm
  rw [if_pos h] at hm
  cases hpt : env.plainText pl.content with
  | error e =>
      simp only [hpt] at hm
      exact Except.noConfusion hm
  | ok s =>
      simp only [hpt, hw] at hm
      cases hpv : env.preview pl.content maxPayloadLength with
      | error e =>
          simp only [hpv] at hm
          exact Except.noConfusion hm
      | ok rc =>
          simp only [hpv, ne_eq, not_true_eq_false, if_false, ite_false] at hm
          injection hm with hm2
          subst hm2
          cases hcat : getTopicCat pl.topic <;>
            simp only [hcat] <;>
            split_ifs <;>
            simp [StrMap.get_set_self, StrMap.get_set_ne,
              msgAdjustedContent, msgRawContent, hpt, hcat]

/-
Claim theorems.
-/

/-- C1: the delivery-result classifier is claimed to abort the batch on every
permanent-config reason.  The code does not: `BadDeviceToken` (like the other
reasons of the first two Go `case` clauses, whose bodies are empty) falls out
of the switch, so the batch continues past a (400, BadDeviceToken) response
with no deletion — the second message is still pushed and nothing is deleted,
contradicting the claimed batch-abort. -/
theorem sendApns_config_error_continues_batch :
    classifyApnsResponse 400 reasonBadDeviceToken = .proceed ∧
    sendApnsLoop
        [(apnsMsgA, 1, 400, reasonBadDeviceToken), (apnsMsgB, 2, 200, "")]
      = (["dA", "dB"], []) := by
  decide

/-- C8 counterexample: a subscription-change payload carrying call-signaling
state "started" yields a dataset whose action code is empty and which is not
marked silent, refuting the claim for non-new-message payloads. -/
theorem payloadToData_sub_call_without_act :
    (payloadToData envId plSubCall).toOption.map
      (fun m => (m.get "act", m.get "silent")) = some ("", "") := by
  decide

set_option maxHeartbeats 2000000 in
/-- C8 (amended to new-message payloads): a new-message payload with
call-signaling state started or missed yields a dataset that is forced
silent, carries a non-empty action code, and whose content is the fixed
marker selected by audio/video/missed. -/
theorem payloadToData_call_signal (env : Env) (pl : Payload) (m : StrMap)
    (h : pl.what = actMsg) (hw : pl.webrtc = "started" ∨ pl.webrtc = "missed")
    (hm : payloadToData env pl = .ok m) :
    m.get "silent" = "true" ∧ m.get "act" ≠ "" ∧
      (pl.webrtc = "missed" →
        m.get "content" = "[MISSED CALL]" ∧ m.get "act" = "3") ∧
      (pl.webrtc = "started" → pl.audioOnly = true →
        m.get "content" = "[AUDIO CALL]" ∧ m.get "act" = "1") ∧
      (pl.webrtc = "started" → pl.audioOnly = false →
        m.get "content" = "[VIDEO CALL]" ∧ m.get "act" = "2") := by
  rw [payloadToData.eq_def] at hm
  rw [if_pos h] at hm
  cases hpt : env.plainText pl.content with
  | error e =>
      simp only [hpt] at hm
      exact Except.noConfusion hm
  | ok s =>
      cases hpv : env.preview pl.content maxPayloadLength with
      | error e =>
          simp only [hpt, hpv] at hm
          exact Except.noConfusion hm
      | ok rc =>
          rcases hw with hw | hw <;> cases haud : pl.audioOnly <;>
            (simp only [hpt, hpv, hw, haud] at hm
             simp at hm
             subst hm
             split_ifs <;>
               (try simp [hw, haud, StrMap.get_set_self, StrMap.get_set_ne]) <;>
               decide)

set_option maxRecDepth 8192 in
/-- C8 witness: the amended theorem evaluated on the concrete audio-call
payload. -/
theorem payloadToData_call_signal_witness :
    ((payloadToData envId plLongCall).toOption.getD []).get "silent" = "true" ∧
    ((payloadToData envId plLongCall).toOption.getD []).get "act" ≠ "" :=
  ⟨(payloadToData_call_signal envId plLongCall
      ((payloadToData envId plLongCall).toOption.getD []) rfl (Or.inl rfl)
      rfl).1,
   (payloadToData_call_signal envId plLongCall
      ((payloadToData envId plLongCall).toOption.getD []) rfl (Or.inl rfl)
      rfl).2.1⟩

set_option maxRecDepth 8192 in
/-- C7 counterexample: a new-message payload whose adjusted content is 130
runes long but which carries a call-signaling state stores the fixed call
marker (12 runes), not a 129-rune truncation. -/
theorem payloadToData_call_overrides_long_content :
    (msgAdjustedContent envId plLongCall).length = 130 ∧
    (payloadToData envId plLongCall).toOption.map
        (fun m => (m.get "content", (m.get "content").length))
      = some ("[AUDIO CALL]", 12) := by
  decide

/-- C7 (amended to payloads without a call-signaling state): content longer
than 128 runes is stored as its first 128 runes plus an ellipsis, 129 runes
in all; content of at most 128 runes is stored unchanged. -/
theorem payloadToData_truncates_content (env : Env) (pl : Payload)
    (m : StrMap) (h : pl.what = actMsg) (hw : pl.webrtc = "")
    (hm : payloadToData env pl = .ok m) :
    (maxPayloadLength < (msgAdjustedContent env pl).length →
      m.get "content"
          = String.mk ((msgAdjustedContent env pl).data.take maxPayloadLength)
              ++ "…" ∧
        (m.get "content").length = maxPayloadLength + 1)
    ∧ ((msgAdjustedContent env pl).length ≤ maxPayloadLength →
        m.get "content" = msgAdjustedContent env pl) := by
  have hc := payloadToData_content_trim env pl m h hw hm
  constructor
  · intro hgt
    refine ⟨?_, ?_⟩
    · rw [hc, trimContent_of_gt _ hgt]
    · rw [hc]
      exact length_trimContent_of_gt _ hgt
  · intro hle
    rw [hc, trimContent_of_le _ hle]

set_option maxRecDepth 8192 in
/-- C7 witness: the amended theorem evaluated on the concrete 130-rune
payload without call-signaling state. -/
theorem payloadToData_truncates_content_witness :
    (((payloadToData envId plLongNoCall).toOption.getD []).get "content").length
      = maxPayloadLength + 1 :=
  ((payloadToData_truncates_content envId plLongNoCall
      ((payloadToData envId plLongNoCall).toOption.getD []) rfl rfl
      rfl).1 (by decide)).2

/-- C4 counterexample: after a successful refresh whose returned expiry is
only 100 seconds, an immediate second `get` triggers another refresh,
refuting the unconditional "no second refresh" half of the claim. -/
theorem getTenantAccessToken_short_expiry_refreshes_again :
    (getTenantAccessToken replyShort 1200 "app" stC4).refreshed = true ∧
    (getTenantAccessToken replyShort 1200 "app" stC4).result = .ok "t2" ∧
    (getTenantAccessToken replyShort 1200 "app"
        ((getTenantAccessToken replyShort 1200 "app" stC4).state)).refreshed
      = true :=
  ⟨rfl, rfl, rfl⟩

/-- C4 (amended): `get` refreshes exactly when `now >= T + E - 300`; and
immediately after a successful refresh whose returned expiry exceeds the
300-second skew, a subsequent `get` returns the newly cached token without
refreshing again. -/
theorem getTenantAccessToken_staleness
    (reply : FeishuAuthReply) (now : Int) (appId : String) (st : TokenMap) :
    ((getTenantAccessToken reply now appId st).refreshed = true ↔
      (st.getTok appId).timestamp + (st.getTok appId).expire - 300 ≤ now)
    ∧ (∀ r st' reply2,
        refreshTenantAccessToken (.response r) now appId st = .ok st' →
        300 < r.expire →
        getTenantAccessToken reply2 now appId st'
          = ⟨.ok r.tenantAccessToken, st', false⟩) := by
  constructor
  · by_cases hle :
      (st.getTok appId).timestamp + (st.getTok appId).expire - 300 ≤ now
    · simp only [getTenantAccessToken, if_pos hle]
      cases href : refreshTenantAccessToken reply now appId st <;> simp [hle]
    · simp [getTenantAccessToken, if_neg hle, hle]
  · intro r st' reply2 hrefresh hexp
    simp only [refreshTenantAccessToken] at hrefresh
    by_cases hc : r.code = 0
    · rw [if_neg (by simp [hc])] at hrefresh
      injection hrefresh with hst
      subst hst
      have hget : (TokenMap.setTok st appId
          ⟨r.tenantAccessToken, r.expire, now⟩).getTok appId
          = ⟨r.tenantAccessToken, r.expire, now⟩ := by
        simp [TokenMap.setTok, TokenMap.getTok, List.find?]
      simp only [getTenantAccessToken, hget]
      rw [if_neg (by omega)]
    · rw [if_pos hc] at hrefresh
      exact absurd hrefresh (by simp)

/-- C4 witness: the amended theorem evaluated on a concrete refresh with a
7200-second expiry; the follow-up `get` does not refresh even though its
reply would fail. -/
theorem getTenantAccessToken_staleness_witness :
    getTenantAccessToken replyBad 1200 "app" stC4AfterRefresh
      = ⟨.ok "t3", stC4AfterRefresh, false⟩ :=
  (getTenantAccessToken_staleness replyLong 1200 "app" stC4).2
    ⟨0, "", "t3", 7200⟩ stC4AfterRefresh replyBad rfl (by decide)

/-- C5: when a triggered refresh fails (transport error, decode error, or a
provider-reported non-zero code), `get` returns that error and the cache is
left exactly as it was. -/
theorem getTenantAccessToken_failed_refresh_preserves_cache
    (reply : FeishuAuthReply) (now : Int) (appId : String) (st : TokenMap)
    (e : String)
    (hstale : (st.getTok appId).timestamp + (st.getTok appId).expire - 300
      ≤ now)
    (href : refreshTenantAccessToken reply now appId st = .error e) :
    getTenantAccessToken reply now appId st = ⟨.error e, st, true⟩ := by
  simp only [getTenantAccessToken, if_pos hstale, href]

/-- C5 witness: the theorem evaluated on a concrete provider-error response
against the stale cache. -/
theorem getTenantAccessToken_failed_refresh_witness :
    getTenantAccessToken replyBad 1200 "app" stC4
      = ⟨.error
          "failed to get tenant_access_token: code=99991663, msg=app not found",
         stC4, true⟩ :=
  getTenantAccessToken_failed_refresh_preserves_cache replyBad 1200 "app"
    stC4 _ (by decide) rfl

/-- The alert option of a built envelope is exactly the
`apnsShouldPresentAlert` decision. -/
theorem hasAlert_eq (what topic : String) (data : StrMap) (unread : Nat)
    (config : ConfigType) (msg : ApnsNotification) (now : Nat) :
    (apnsNotificationConfig what topic data unread config msg now).hasAlert
      = apnsShouldPresentAlert what (data.get "webrtc") (data.get "silent")
          config := by
  cases hb : apnsShouldPresentAlert what (data.get "webrtc")
      (data.get "silent") config <;>
    simp only [apnsNotificationConfig, ApnsNotification.hasAlert, hb] <;>
    split <;> simp

/-- C6: the built envelope carries a human-visible alert block iff provider
push is enabled, the action is not a read receipt, and either the dataset has
no call-signaling state and is not marked silent, or the call-signaling state
is started or missed; otherwise the push is data-only. -/
theorem apnsNotificationConfig_alert_iff
    (what topic : String) (data : StrMap) (unread : Nat) (config : ConfigType)
    (msg : ApnsNotification) (now : Nat) :
    (apnsNotificationConfig what topic data unread config msg now).hasAlert
        = true ↔
      (config.enabled = true ∧ what ≠ actRead ∧
        ((data.get "webrtc" = "" ∧ data.get "silent" = "") ∨
          data.get "webrtc" = "started" ∨ data.get "webrtc" = "missed")) := by
  rw [hasAlert_eq]
  simp only [apnsShouldPresentAlert, Bool.and_eq_true, Bool.or_eq_true,
    Bool.not_eq_true', beq_iff_eq, beq_eq_false_iff_ne, ne_eq]
  tauto

/-- The builder never changes the device token of the half-built envelope. -/
theorem apnsNotificationConfig_deviceToken (what topic : String)
    (data : StrMap) (unread : Nat) (config : ConfigType)
    (msg : ApnsNotification) (now : Nat) :
    (apnsNotificationConfig what topic data unread config msg now).deviceToken
      = msg.deviceToken := by
  simp only [apnsNotificationConfig]

/-- Every envelope produced by the per-device loop passes the skip-set and
empty-id guard, and carries its recipient's uid. -/
theorem deviceMessages_mem (skip : List String) (config : ConfigType)
    (what topic : String) (userData : StrMap) (unread : Nat) (uid : Nat)
    (now : Nat) (devList : List DeviceDef) (p : ApnsNotification × Nat)
    (hp : p ∈ deviceMessages skip config what topic userData unread uid now
      devList) :
    p.1.deviceToken ∉ skip ∧ p.1.deviceToken ≠ "" ∧ p.2 = uid := by
  obtain ⟨d, hd, hf⟩ := List.mem_filterMap.mp hp
  split at hf
  · next hcond =>
      injection hf with hf2
      subst hf2
      refine ⟨?_, ?_, rfl⟩ <;>
        by_cases hplat : d.platform = "ios" <;>
          simp [hplat, apnsNotificationConfig_deviceToken, hcond.1, hcond.2]
  · exact Option.noConfusion hf

/-- The guard property lifted through the recipient fold. -/
theorem prepareLoop_mem (rcpt : Receipt) (skip : List String)
    (config : ConfigType) (now : Nat)
    (devices : List (Nat × List DeviceDef)) (base : StrMap)
    (p : ApnsNotification × Nat)
    (hp : p ∈ (prepareLoop rcpt skip config now devices base).2) :
    p.1.deviceToken ∉ skip ∧ p.1.deviceToken ≠ "" := by
  induction devices generalizing base with
  | nil => simp [prepareLoop] at hp
  | cons hd tl ih =>
      obtain ⟨uid, devList⟩ := hd
      simp only [prepareLoop] at hp
      rcases List.mem_append.mp hp with hmem | hmem
      · have := deviceMessages_mem _ _ _ _ _ _ _ _ _ _ hmem
        exact ⟨this.1, this.2.1⟩
      · exact ih _ hmem

/-- C2: no outbound envelope targets a device id found in any recipient's
delivered-interactively set (the skip-set, aggregated across all recipients
of the Receipt), nor a device with an empty id. -/
theorem prepareApns_never_targets_delivered_devices (env : Env)
    (rcpt : Receipt) (config : Option ConfigType)
    (devs : List (Nat × List DeviceDef)) (now : Nat) (msg : ApnsNotification)
    (hmsg : msg ∈ (prepareApnsNotifications env rcpt config devs now).messages) :
    msg.deviceToken ∉ receiptSkipDevices rcpt ∧ msg.deviceToken ≠ "" := by
  rw [prepareApnsNotifications.eq_def] at hmsg
  cases hok : payloadToData env rcpt.payload with
  | error e =>
      rw [hok] at hmsg
      simp at hmsg
  | ok d =>
      rw [hok] at hmsg
      simp at hmsg
      split at hmsg <;> split at hmsg <;> simp at hmsg <;>
        (obtain ⟨u, hp⟩ := hmsg
         exact prepareLoop_mem _ _ _ _ _ _ _ hp)

/-- C2 witness: the theorem applied to the concrete receipt `rcptC2`, whose
recipient already received the event on dA, and the envelope built for dB. -/
theorem prepareApns_never_targets_delivered_devices_witness :
    "dB" ∉ receiptSkipDevices rcptC2 ∧ "dB" ≠ "" :=
  prepareApns_never_targets_delivered_devices envId rcptC2 none devsC2 0
    ⟨"dB", "", "grpg", 0, "", 0, none⟩ (by decide)

/-- The per-device loop emits exactly the non-skipped, non-empty devices. -/
theorem deviceMessages_length (skip : List String) (config : ConfigType)
    (what topic : String) (userData : StrMap) (unread : Nat) (uid : Nat)
    (now : Nat) (devList : List DeviceDef) :
    (deviceMessages skip config what topic userData unread uid now
        devList).length
      = (devList.filter (fun d =>
          d.deviceId ∉ skip ∧ d.deviceId ≠ "")).length := by
  induction devList with
  | nil => rfl
  | cons d tl ih =>
      simp only [deviceMessages] at ih ⊢
      by_cases hcond : d.deviceId ∉ skip ∧ d.deviceId ≠ "" <;>
        simp [List.filterMap_cons, List.filter_cons, hcond, ih]

/-- The emission count lifted through the recipient fold. -/
theorem prepareLoop_length (rcpt : Receipt) (skip : List String)
    (config : ConfigType) (now : Nat)
    (devices : List (Nat × List DeviceDef)) (base : StrMap) :
    (prepareLoop rcpt skip config now devices base).2.length
      = (devices.map (fun p =>
          (p.2.filter (fun d =>
            d.deviceId ∉ skip ∧ d.deviceId ≠ "")).length)).sum := by
  induction devices generalizing base with
  | nil => rfl
  | cons hd tl ih =>
      obtain ⟨uid, devList⟩ := hd
      simp only [prepareLoop, List.map_cons, List.sum_cons]
      rw [List.length_append, deviceMessages_length, ih]

/-- C3 counterexample: a single registered device whose platform tag is `web`
still yields an outbound envelope (the append sits outside the platform
switch), so the platform tag does not reduce the envelope count as claimed. -/
theorem prepareApns_web_platform_counted :
    (prepareApnsNotifications envId rcptC3 none devsC3 0).messages.map
        (fun m => m.deviceToken) = ["d1"] ∧
    devsC3.map (fun p => p.2.map (fun d => d.platform)) = [["web"]] := by
  decide

/-- C3 (amended): the envelope count equals the number of registered devices
of the Receipt's recipients that are neither in the skip-set nor have an
empty device id; the platform tag plays no role in the count. -/
theorem prepareApns_envelope_count (env : Env) (rcpt : Receipt)
    (config : Option ConfigType) (devs : List (Nat × List DeviceDef))
    (now : Nat) (d : StrMap)
    (hok : payloadToData env rcpt.payload = .ok d) :
    (prepareApnsNotifications env rcpt config devs now).messages.length
      = apnsTargetCount rcpt devs := by
  rw [prepareApnsNotifications.eq_def, hok]
  simp only []
  by_cases hTo : 0 < rcpt.To.length
  · simp only [if_pos hTo]
    by_cases hz : (List.map (fun p => p.2.length) devs).sum = 0 ∧
        rcpt.channel = ""
    · rw [if_pos hz]
      simp only [PrepareResult.messages, List.length_nil, apnsTargetCount,
        if_pos hTo]
      have hle : (devs.map (fun p =>
          (p.2.filter (fun dv =>
            dv.deviceId ∉ receiptSkipDevices rcpt ∧ dv.deviceId ≠ "")).length)).sum
          ≤ (devs.map (fun p => p.2.length)).sum := by
        apply List.sum_le_sum
        intro i hi
        simp only [List.mem_map] at hi ⊢
        exact List.length_filter_le _ _
      omega
    · rw [if_neg hz]
      simp only [PrepareResult.messages]
      rw [List.length_map, prepareLoop_length]
      simp [apnsTargetCount, if_pos hTo]
  · simp only [if_neg hTo]
    by_cases hch : rcpt.channel = ""
    · rw [if_pos (by simpa using hch)]
      simp [apnsTargetCount, hTo]
    · rw [if_neg (fun hcontra => hch hcontra.2)]
      simp only [PrepareResult.messages]
      rw [List.length_map, prepareLoop_length]
      simp [apnsTargetCount, hTo]

/-- C3 witness: the amended count evaluated on a two-recipient receipt with
one pre-delivered device. -/
theorem prepareApns_envelope_count_witness :
    (prepareApnsNotifications envId rcptC9 none devsC9 0).messages.length
      = apnsTargetCount rcptC9 devsC9 :=
  prepareApns_envelope_count envId rcptC9 none devsC9 0
    ((payloadToData envId rcptC9.payload).toOption.getD []) rfl

/-- The per-recipient dataset step never writes through the shared-base
alias: it clones first. -/
theorem userDataStep_base (base : StrMap) (delivered uid : Nat)
    (plTopic : TopicId) :
    (userDataStep base delivered uid plTopic).base = base := by
  simp only [userDataStep, writeRef, clonePayload]
  split_ifs <;> rfl

/-- The shared base dataset survives the whole recipient fold unchanged. -/
theorem prepareLoop_base (rcpt : Receipt) (skip : List String)
    (config : ConfigType) (now : Nat)
    (devices : List (Nat × List DeviceDef)) (base : StrMap) :
    (prepareLoop rcpt skip config now devices base).1 = base := by
  induction devices generalizing base with
  | nil => rfl
  | cons hd tl ih =>
      obtain ⟨uid, devList⟩ := hd
      simp only [prepareLoop]
      rw [ih, userDataStep_base]

/-- A per-user topic name never collides with a direct-topic name (they start
with different identifier classes). -/
theorem usrName_ne_p2pName (u a b : Nat) :
    TopicId.name (.usr u) ≠ TopicId.name (.p2p a b) := by
  intro h
  have h2 := congrArg String.data h
  simp only [TopicId.name, String.data_append] at h2
  simp at h2

/-- A direct-topic name is never empty. -/
theorem p2pName_ne_empty (a b : Nat) : TopicId.name (.p2p a b) ≠ "" := by
  intro h
  have h2 := congrArg String.data h
  simp only [TopicId.name, String.data_append] at h2
  simp at h2

/-- On a direct topic the recipient's dataset holds the per-user rewritten
topic. -/
theorem userDataStep_p2p_read (base : StrMap) (delivered uid a b : Nat) :
    ((userDataStep base delivered uid (.p2p a b)).userData.read
        ((userDataStep base delivered uid (.p2p a b)).base)).get "topic"
      = (p2pNameForUser uid (.p2p a b)).getD "" := by
  simp only [userDataStep, getTopicCat, writeRef, clonePayload]
  by_cases hdel : 0 < delivered <;>
    simp [hdel, MapRef.read, StrMap.get_set_self,
      StrMap.get_set_ne _ _ _ _ (by decide : ¬ "silent" = "topic")]

/-- C9: the resolver clones before mutating, so the shared base dataset of a
Receipt is unchanged after every recipient is processed; and on a direct
topic each recipient's cloned dataset carries a topic value distinct from the
shared base whenever the two participants differ. -/
theorem prepareApns_clones_base :
    (∀ (env : Env) (rcpt : Receipt) (config : Option ConfigType)
        (devs : List (Nat × List DeviceDef)) (now : Nat) (d : StrMap),
      payloadToData env rcpt.payload = .ok d →
      (prepareApnsNotifications env rcpt config devs now).base = d)
    ∧ (∀ (base : StrMap) (delivered uid a b : Nat), a ≠ b →
        base.get "topic" = TopicId.name (.p2p a b) →
          ((userDataStep base delivered uid (.p2p a b)).userData.read
              ((userDataStep base delivered uid (.p2p a b)).base)).get "topic"
            ≠ base.get "topic") := by
  constructor
  · intro env rcpt config devs now d hok
    rw [prepareApnsNotifications.eq_def, hok]
    simp only []
    split <;> split <;>
      first
        | rfl
        | (simp only [PrepareResult.base]
           rw [prepareLoop_base])
  · intro base delivered uid a b hab htop
    rw [userDataStep_p2p_read, htop]
    simp only [p2pNameForUser]
    split_ifs with h1 h2
    · exact fun hcontra =>
        usrName_ne_p2pName b a b (by simpa using hcontra)
    · exact fun hcontra =>
        usrName_ne_p2pName a a b (by simpa using hcontra)
    · exact fun hcontra => p2pName_ne_empty a b (by simpa using hcontra.symm)

/-- C9 witness: both halves evaluated on the concrete direct-topic receipt
`rcptC9` (participants 3 and 4, recipient 3 already served). -/
theorem prepareApns_clones_base_witness :
    (prepareApnsNotifications envId rcptC9 none devsC9 0).base
        = (payloadToData envId rcptC9.payload).toOption.getD [] ∧
    ((userDataStep ((payloadToData envId rcptC9.payload).toOption.getD []) 1 3
          (.p2p 3 4)).userData.read
        ((userDataStep ((payloadToData envId rcptC9.payload).toOption.getD [])
            1 3 (.p2p 3 4)).base)).get "topic"
      ≠ ((payloadToData envId rcptC9.payload).toOption.getD []).get "topic" :=
  ⟨prepareApns_clones_base.1 envId rcptC9 none devsC9 0
      ((payloadToData envId rcptC9.payload).toOption.getD []) rfl,
   prepareApns_clones_base.2
      ((payloadToData envId rcptC9.payload).toOption.getD []) 1 3 3 4
      (by decide) (by decide)⟩

/-- C10: the webhook (feishu) adapter never addresses an outbound message to
the Payload's sender (provided the sender identity parses), and a Receipt
whose action kind is not new-message, or whose call-signaling state is
present but not "started", produces no outbound messages at all. -/
theorem sendFeishuMessage_spec (rcpt : Receipt) (db : List FeishuUserRec) :
    (parseUserId rcpt.payload.fromUser ≠ 0 →
      ∀ s ∈ sendFeishuMessage rcpt db,
        s.user.uid ≠ parseUserId rcpt.payload.fromUser)
    ∧ (rcpt.payload.what ≠ actMsg → sendFeishuMessage rcpt db = [])
    ∧ (rcpt.payload.webrtc ≠ "" → rcpt.payload.webrtc ≠ "started" →
        sendFeishuMessage rcpt db = []) := by
  refine ⟨?_, ?_, ?_⟩
  · intro hfrom s hs
    rw [sendFeishuMessage.eq_def] at hs
    split at hs
    · simp at hs
    · split at hs
      · simp at hs
      · simp at hs
        obtain ⟨a, ha⟩ := hs.2
        rw [← ha.2]
        show a.uid ≠ parseUserId rcpt.payload.fromUser
        rcases ha.1.2.2 with hL | hR
        · exact hL.2
        · have h0 := hR.2
          omega
  · intro hwhat
    rw [sendFeishuMessage.eq_def, if_pos hwhat]
  · intro hw1 hw2
    rw [sendFeishuMessage.eq_def]
    split
    · rfl
    · rw [if_pos ⟨hw1, hw2⟩]

/-- C10 witness: the theorem applied to the concrete receipt sent by user 5
to recipients 5 and 7 (only user 7 is messaged), and to its read-receipt
variant (nothing is sent). -/
theorem sendFeishuMessage_spec_witness :
    (⟨⟨7, "u7", "appA"⟩, "收到一条新消息，快打开软件看看吧", false⟩ : FeishuSend).user.uid
        ≠ parseUserId rcptC10.payload.fromUser ∧
    sendFeishuMessage rcptC10Read dbC10 = [] :=
  ⟨(sendFeishuMessage_spec rcptC10 dbC10).1 (by decide)
      ⟨⟨7, "u7", "appA"⟩, "收到一条新消息，快打开软件看看吧", false⟩ (by decide),
   (sendFeishuMessage_spec rcptC10Read dbC10).2.1 (by decide)⟩

end ChatPush
